import Mathlib

/-!
# Bluff Royal — shallow embedding of the game engine

This file embeds the data model of `models.py` and the operations of
`game_engine.py` (class `GameEngine`) as pure Lean functions, and proves
the frozen claims about them.

Modelling conventions:
* Python `UUID` identifiers become `Nat`.
* The mutable `GameEngine` object (its `active_games` dict, `active_timers`
  dict, and the ad-hoc instance attributes `_last_play_count` /
  `_last_player_id`) becomes the `GameEngine` structure; each action is a
  function `GameEngine → ... → GameEngine × Option GameError` in which the
  returned engine is the state as it stands when the function returns or
  raises, and the `Option GameError` component is the raised error
  (`none` = success).  `getattr(self, "_last_play_count", 0)` is modelled
  by a `Nat` field initialised to `0`, and `getattr(self, "_last_player_id",
  None)` by an `Option` field, which have exactly the same read semantics.
* `random.shuffle` in `start_game` is modelled by passing the shuffled deck
  as an argument; a "shuffled 52-card deck" is any permutation of
  `build_deck`.
* The asynchronous 3-second reaction timer `_reaction_timer` is modelled by
  `reaction_timer (cancelled : Bool)`: the body after `await asyncio.sleep`
  is the pure state transformer `reaction_timer_fire`, and a cancelled task
  takes the `except asyncio.CancelledError` branch, which returns without
  touching any state.
* The Python `ValueError`s are mapped to the spec's error taxonomy
  (`InvalidPhase`, `NotYourTurn`, ...), one constructor per raise site.
-/

namespace BluffRoyal

/-- The four suits of `models.Suit`. -/
inductive Suit where
  | Coeur
  | Carreau
  | Trefle
  | Pique
deriving DecidableEq, Repr

/-- `models.Card`: a playing card (value 3..15 in the real model). -/
structure Card where
  value : Nat
  suit : Suit
deriving DecidableEq, Repr

/-- `models.Claim`: the announcement made with a face-down play.
The pydantic model constrains `quantity > 0` and `3 ≤ value ≤ 15`;
theorems that need those constraints take them as hypotheses. -/
structure Claim where
  quantity : Nat
  value : Nat
deriving DecidableEq, Repr

/-- `models.PlayerRole` (unused by the core logic). -/
inductive PlayerRole where
  | President
  | Vice_President
  | Neutre
  | Vice_Serviteur
  | Serviteur
deriving DecidableEq, Repr

/-- `models.GamePhase`. -/
inductive GamePhase where
  | WaitingForPlayers
  | InGame
  | ReactionWindow
  | Resolution
  | RoundEnd
deriving DecidableEq, Repr

abbrev PlayerId := Nat
abbrev GameId := Nat

/-- `models.Player`. -/
structure Player where
  id : PlayerId
  pseudo : String
  hand : List Card
  role : PlayerRole
  has_passed : Bool
deriving DecidableEq, Repr

/-- `models.GameState`: the per-room state. -/
structure GameState where
  game_id : GameId
  players : List Player
  active_player_id : Option PlayerId
  current_trick : List Card
  current_claim : Option Claim
  phase : GamePhase
deriving DecidableEq, Repr

instance : Inhabited GameState :=
  ⟨{ game_id := 0, players := [], active_player_id := none,
     current_trick := [], current_claim := none,
     phase := GamePhase.WaitingForPlayers }⟩

/-- The spec's error taxonomy (§7); every `raise ValueError` site of
`game_engine.py` maps to exactly one constructor. -/
inductive GameError where
  | RoomNotFound
  | PlayerNotFound
  | InvalidPhase
  | NotYourTurn
  | NotEnoughPlayers
  | CardNotInHand
  | CannotChallengeSelf
  | NoActiveClaim
deriving DecidableEq, Repr

/-- The engine object: the `active_games` dict (an association list with
unique keys), the `active_timers` dict (only membership of a room id
matters for the model: the task handle itself is opaque), and the two
ad-hoc instance attributes `_last_play_count` / `_last_player_id`, which
are fields of the ENGINE, not of any room. -/
structure GameEngine where
  active_games : List (GameId × GameState)
  active_timers : List GameId
  last_play_count : Nat
  last_player_id : Option PlayerId
deriving DecidableEq, Repr

/-- Dict lookup on the `active_games` association list (first match). -/
def lookupGame : List (GameId × GameState) → GameId → Option GameState
  | [], _ => none
  | (g, st) :: rest, gid => if g = gid then some st else lookupGame rest gid

/-- Dict value replacement at a key (first match). -/
def updateGame : List (GameId × GameState) → GameId → GameState →
    List (GameId × GameState)
  | [], _, _ => []
  | (g, old) :: rest, gid, st =>
      if g = gid then (g, st) :: rest else (g, old) :: updateGame rest gid st

/-- The room of `e` with identifier `gid` (a default room if absent);
used only to phrase theorems, never by the operations themselves. -/
def roomOf (e : GameEngine) (gid : GameId) : GameState :=
  (lookupGame e.active_games gid).getD default

/-- Dict assignment `self.active_timers[game_id] = task`: at the level of
membership a replacement is the identity, a fresh key is added. -/
def insertTimer (gid : GameId) (ts : List GameId) : List GameId :=
  if gid ∈ ts then ts else gid :: ts

/-- `GameEngine._get_player_index` together with the indexed access that
follows it: the position of the player with the given id, and that
player.  `none` models the `ValueError` ("Joueur introuvable"). -/
def findPlayer : List Player → PlayerId → Option (Nat × Player)
  | [], _ => none
  | p :: rest, pid =>
      if p.id = pid then some (0, p)
      else (findPlayer rest pid).map (fun ip => (ip.1 + 1, ip.2))

/-- The scan of `GameEngine._next_active_player`: tries the given offsets
in order, returning the id of the first candidate at index
`(after_index + offset) % n` whose `has_passed` is false. -/
def scanOffsets (ps : List Player) (after_index : Nat) : List Nat → Option PlayerId
  | [] => none
  | o :: rest =>
      match ps.get? ((after_index + o) % ps.length) with
      | some cand =>
          if cand.has_passed then scanOffsets ps after_index rest
          else some cand.id
      | none => scanOffsets ps after_index rest

/-- `GameEngine._next_active_player`: next player that has not passed,
scanning offsets `1, ..., n` circularly; `none` when all have passed. -/
def next_active_player (game : GameState) (after_index : Nat) : Option PlayerId :=
  if game.players.length = 0 then none
  else scanOffsets game.players after_index (List.range' 1 game.players.length)

/-- `GameEngine._build_deck` before the shuffle: the 52 cards
(values 3..15 × 4 suits) in construction order. -/
def build_deck : List Card :=
  (List.range' 3 13).flatMap
    (fun v => [⟨v, Suit.Coeur⟩, ⟨v, Suit.Carreau⟩, ⟨v, Suit.Trefle⟩, ⟨v, Suit.Pique⟩])

/-- The dealing loop of `start_game`: player `i` (counting from the given
start index) receives `deck[i*cpp : (i+1)*cpp]` and `has_passed := false`. -/
def dealHands (deck : List Card) (cpp : Nat) : Nat → List Player → List Player
  | _, [] => []
  | i, p :: rest =>
      { p with hand := (deck.drop (i * cpp)).take cpp, has_passed := false }
        :: dealHands deck cpp (i + 1) rest

/-- `GameEngine.start_game`.  The shuffled deck is an argument (see the
module docstring); everything else follows the Python line by line. -/
def start_game (e : GameEngine) (gid : GameId) (deck : List Card) :
    GameEngine × Option GameError :=
  match lookupGame e.active_games gid with
  | none => (e, some GameError.RoomNotFound)
  | some game =>
    if game.phase ≠ GamePhase.WaitingForPlayers then
      (e, some GameError.InvalidPhase)
    else if game.players.length < 2 then
      (e, some GameError.NotEnoughPlayers)
    else
      let cpp := deck.length / game.players.length
      let game' : GameState :=
        { game with
            players := dealHands deck cpp 0 game.players
            active_player_id := game.players.head?.map Player.id
            phase := GamePhase.InGame
            current_trick := []
            current_claim := none }
      ({ e with active_games := updateGame e.active_games gid game' }, none)

/-- The ownership check of `play_cards`: remove each requested card from a
copy of the hand (`list.remove` = erase the first equal element);
`none` models the `ValueError` ("Le joueur ne possède pas la carte"). -/
def removeCards (hand : List Card) : List Card → Option (List Card)
  | [] => some hand
  | c :: rest =>
      if c ∈ hand then removeCards (hand.erase c) rest else none

/-- `GameEngine.play_cards`. -/
def play_cards (e : GameEngine) (gid : GameId) (pid : PlayerId)
    (cards : List Card) (claim : Claim) : GameEngine × Option GameError :=
  match lookupGame e.active_games gid with
  | none => (e, some GameError.RoomNotFound)
  | some game =>
    if game.phase ≠ GamePhase.InGame then
      (e, some GameError.InvalidPhase)
    else if game.active_player_id ≠ some pid then
      (e, some GameError.NotYourTurn)
    else
      match findPlayer game.players pid with
      | none => (e, some GameError.PlayerNotFound)
      | some (idx, player) =>
        match removeCards player.hand cards with
        | none => (e, some GameError.CardNotInHand)
        | some hand' =>
          let game' : GameState :=
            { game with
                players := game.players.set idx { player with hand := hand' }
                current_trick := game.current_trick ++ cards
                current_claim := some claim
                phase := GamePhase.ReactionWindow }
          ({ e with
               active_games := updateGame e.active_games gid game'
               active_timers := insertTimer gid e.active_timers
               last_play_count := cards.length
               last_player_id := some pid }, none)

/-- `GameEngine.call_bluff`.  Note the faithful ordering: the timer entry
is popped (and the task cancelled) BEFORE the `current_claim is None`
check and before the two player lookups, so those three failures leave
the timer registry already mutated. -/
def call_bluff (e : GameEngine) (gid : GameId) (caller_id : PlayerId) :
    GameEngine × Option GameError :=
  match lookupGame e.active_games gid with
  | none => (e, some GameError.RoomNotFound)
  | some game =>
    if game.phase ≠ GamePhase.ReactionWindow then
      (e, some GameError.InvalidPhase)
    else if some caller_id = e.last_player_id then
      (e, some GameError.CannotChallengeSelf)
    else
      let e1 : GameEngine := { e with active_timers := e.active_timers.erase gid }
      match game.current_claim with
      | none => (e1, some GameError.NoActiveClaim)
      | some claim =>
        let play_count := e.last_play_count
        let played_cards :=
          if play_count > 0 then
            game.current_trick.drop (game.current_trick.length - play_count)
          else []
        let is_bluff : Bool :=
          (played_cards.length != claim.quantity)
            || played_cards.any (fun c => c.value != claim.value)
        let liar_id : PlayerId := e.last_player_id.getD caller_id
        match findPlayer game.players liar_id with
        | none => (e1, some GameError.PlayerNotFound)
        | some (liar_idx, liar) =>
          match findPlayer game.players caller_id with
          | none => (e1, some GameError.PlayerNotFound)
          | some (caller_idx, caller) =>
            let trick_cards := game.current_trick
            let game1 : GameState :=
              if is_bluff then
                { game with
                    players := game.players.set liar_idx
                      { liar with hand := liar.hand ++ trick_cards }
                    active_player_id := some caller_id }
              else
                { game with
                    players := game.players.set caller_idx
                      { caller with hand := caller.hand ++ trick_cards }
                    active_player_id := some liar_id }
            let game2 : GameState :=
              { game1 with
                  current_trick := []
                  current_claim := none
                  phase := GamePhase.InGame }
            ({ e1 with active_games := updateGame e1.active_games gid game2 }, none)

/-- `GameEngine.pass_turn`. -/
def pass_turn (e : GameEngine) (gid : GameId) (pid : PlayerId) :
    GameEngine × Option GameError :=
  match lookupGame e.active_games gid with
  | none => (e, some GameError.RoomNotFound)
  | some game =>
    if game.phase ≠ GamePhase.InGame then
      (e, some GameError.InvalidPhase)
    else if game.active_player_id ≠ some pid then
      (e, some GameError.NotYourTurn)
    else
      match findPlayer game.players pid with
      | none => (e, some GameError.PlayerNotFound)
      | some (idx, player) =>
        let players1 := game.players.set idx { player with has_passed := true }
        let game1 : GameState := { game with players := players1 }
        match next_active_player game1 idx with
        | none =>
            let game2 : GameState :=
              { game1 with
                  current_trick := []
                  current_claim := none
                  players := players1.map (fun p => { p with has_passed := false })
                  active_player_id := some pid }
            ({ e with active_games := updateGame e.active_games gid game2 }, none)
        | some next_id =>
            let game2 : GameState := { game1 with active_player_id := some next_id }
            ({ e with active_games := updateGame e.active_games gid game2 }, none)

/-- The body of `GameEngine._reaction_timer` after the sleep completes
uncancelled.  Mutation order follows the Python: if `_get_player_index`
raises (liar id not in this room — possible because `_last_player_id` is
an engine-level field), the task dies before any mutation. -/
def reaction_timer_fire (e : GameEngine) (gid : GameId) : GameEngine :=
  match lookupGame e.active_games gid with
  | none => e
  | some game =>
    match e.last_player_id with
    | some liar_id =>
      match findPlayer game.players liar_id with
      | none => e
      | some (liar_idx, _) =>
        let game' : GameState :=
          { game with
              active_player_id := next_active_player game liar_idx
              phase := GamePhase.InGame }
        { e with
            active_games := updateGame e.active_games gid game'
            active_timers := e.active_timers.erase gid }
    | none =>
      let game' : GameState :=
        { game with active_player_id := none, phase := GamePhase.InGame }
      { e with
          active_games := updateGame e.active_games gid game'
          active_timers := e.active_timers.erase gid }

/-- `GameEngine._reaction_timer` as a whole: a cancelled task takes the
`except asyncio.CancelledError: return` branch and performs no state
mutation; an uncancelled one runs `reaction_timer_fire`. -/
def reaction_timer (cancelled : Bool) (e : GameEngine) (gid : GameId) : GameEngine :=
  if cancelled then e else reaction_timer_fire e gid

/-- Total number of cards held in a room: all hands plus the trick pile. -/
def totalCards (game : GameState) : Nat :=
  (game.players.map (fun p => p.hand.length)).sum + game.current_trick.length

/-- The bluff condition exactly as the claims phrase it: the last `n` cards
of the trick differ in count from the claimed quantity, or one of them
differs in value from the claimed value. -/
def bluffDetected (trick : List Card) (n : Nat) (claim : Claim) : Prop :=
  (trick.drop (trick.length - n)).length ≠ claim.quantity ∨
    ∃ c ∈ trick.drop (trick.length - n), c.value ≠ claim.value

instance (trick : List Card) (n : Nat) (claim : Claim) :
    Decidable (bluffDetected trick n claim) := by
  unfold bluffDetected
  infer_instance

/- ─────────────  concrete scenarios used as test vectors  ───────────── -/

/-- A player with the given id, hand and pass flag. -/
def mkPlayer (i : PlayerId) (hand : List Card) (hp : Bool) : Player :=
  { id := i, pseudo := "p", hand := hand, role := PlayerRole.Neutre,
    has_passed := hp }

/-- Room 1 during a reaction window: player 10 has just played one card
(the 7 of hearts) claiming one 7; the timer is outstanding. -/
def c1Room : GameState :=
  { game_id := 1, players := [mkPlayer 10 [] false, mkPlayer 11 [] false],
    active_player_id := some 10, current_trick := [⟨7, Suit.Coeur⟩],
    current_claim := some ⟨1, 7⟩, phase := GamePhase.ReactionWindow }

def c1Engine : GameEngine :=
  { active_games := [(1, c1Room)], active_timers := [1],
    last_play_count := 1, last_player_id := some 10 }

def c2Room : GameState := c1Room

def c2Engine : GameEngine :=
  { active_games := [(1, c2Room)], active_timers := [1],
    last_play_count := 1, last_player_id := some 10 }

/-- Room 1 during a reaction window after a truthful two-card play of 7s
by player 10. -/
def c3Room : GameState :=
  { game_id := 1, players := [mkPlayer 10 [] false, mkPlayer 11 [] false],
    active_player_id := some 10,
    current_trick := [⟨7, Suit.Coeur⟩, ⟨7, Suit.Carreau⟩],
    current_claim := some ⟨2, 7⟩, phase := GamePhase.ReactionWindow }

def c3Engine : GameEngine :=
  { active_games := [(1, c3Room)], active_timers := [1],
    last_play_count := 2, last_player_id := some 10 }

/-- Like `c3Room` but the play was a lie: a 7 and an 8 claimed as two 7s. -/
def c3LieRoom : GameState :=
  { c3Room with current_trick := [⟨7, Suit.Coeur⟩, ⟨8, Suit.Carreau⟩] }

def c3LieEngine : GameEngine :=
  { active_games := [(1, c3LieRoom)], active_timers := [1],
    last_play_count := 2, last_player_id := some 10 }

/-- A fresh two-player room about to be started, and the run in which
player 10 opens with one card, nobody contests, the timer fires, and then
both players pass: the one trick card is silently discarded. -/
def c4Room : GameState :=
  { game_id := 1, players := [mkPlayer 10 [] false, mkPlayer 11 [] false],
    active_player_id := none, current_trick := [], current_claim := none,
    phase := GamePhase.WaitingForPlayers }

def c4E0 : GameEngine :=
  { active_games := [(1, c4Room)], active_timers := [],
    last_play_count := 0, last_player_id := none }

def c4E1 : GameEngine := (start_game c4E0 1 build_deck).1

def c4E2 : GameEngine := (play_cards c4E1 1 10 [⟨3, Suit.Coeur⟩] ⟨1, 3⟩).1

def c4E3 : GameEngine := reaction_timer_fire c4E2 1

def c4E4 : GameEngine := (pass_turn c4E3 1 11).1

def c4E5 : GameEngine := (pass_turn c4E4 1 10).1

/-- Two independent rooms: room 1 sits in a reaction window (player 10
played two truthful 7s), room 2 is mid-game with player 20 to move. -/
def c5RoomA : GameState :=
  { game_id := 1, players := [mkPlayer 10 [] false, mkPlayer 11 [] false],
    active_player_id := some 10,
    current_trick := [⟨7, Suit.Coeur⟩, ⟨7, Suit.Carreau⟩],
    current_claim := some ⟨2, 7⟩, phase := GamePhase.ReactionWindow }

def c5RoomB : GameState :=
  { game_id := 2, players := [mkPlayer 20 [⟨5, Suit.Coeur⟩] false, mkPlayer 21 [] false],
    active_player_id := some 20, current_trick := [], current_claim := none,
    phase := GamePhase.InGame }

def c5Engine : GameEngine :=
  { active_games := [(1, c5RoomA), (2, c5RoomB)], active_timers := [1],
    last_play_count := 2, last_player_id := some 10 }

/-- The same engine after player 20 plays one card in room 2. -/
def c5EngineB : GameEngine := (play_cards c5Engine 2 20 [⟨5, Suit.Coeur⟩] ⟨1, 5⟩).1

/-- A reaction-window room whose claim is `None`: the one state in which
`call_bluff` fails only after having popped and cancelled the timer. -/
def c6Room : GameState :=
  { game_id := 1, players := [mkPlayer 10 [] false, mkPlayer 11 [] false],
    active_player_id := some 10, current_trick := [], current_claim := none,
    phase := GamePhase.ReactionWindow }

def c6Engine : GameEngine :=
  { active_games := [(1, c6Room)], active_timers := [1],
    last_play_count := 0, last_player_id := some 10 }

/-- An in-game room used to exercise the `NotYourTurn` rejection. -/
def c6TurnRoom : GameState :=
  { game_id := 1, players := [mkPlayer 10 [⟨3, Suit.Coeur⟩] false, mkPlayer 11 [] false],
    active_player_id := some 10, current_trick := [], current_claim := none,
    phase := GamePhase.InGame }

def c6TurnEngine : GameEngine :=
  { active_games := [(1, c6TurnRoom)], active_timers := [],
    last_play_count := 0, last_player_id := none }

def c7Engine : GameEngine := c4E0

/-- A one-player waiting room: `start_game` must refuse it. -/
def c7SoloRoom : GameState :=
  { game_id := 3, players := [mkPlayer 30 [] false], active_player_id := none,
    current_trick := [], current_claim := none,
    phase := GamePhase.WaitingForPlayers }

def c7SoloEngine : GameEngine :=
  { active_games := [(3, c7SoloRoom)], active_timers := [],
    last_play_count := 0, last_player_id := none }

/-- A three-player room mid-game, player 10 to move, player 11 already
passed; and a variant in which everyone else has already passed. -/
def c8Room : GameState :=
  { game_id := 1,
    players := [mkPlayer 10 [] false, mkPlayer 11 [] true, mkPlayer 12 [] false],
    active_player_id := some 10, current_trick := [⟨9, Suit.Pique⟩],
    current_claim := none, phase := GamePhase.InGame }

def c8Engine : GameEngine :=
  { active_games := [(1, c8Room)], active_timers := [],
    last_play_count := 1, last_player_id := some 11 }

def c8AllRoom : GameState :=
  { c8Room with
      players := [mkPlayer 10 [] false, mkPlayer 11 [] true, mkPlayer 12 [] true] }

def c8AllEngine : GameEngine :=
  { active_games := [(1, c8AllRoom)], active_timers := [],
    last_play_count := 1, last_player_id := some 11 }

def c9Room : GameState :=
  { game_id := 1,
    players := [mkPlayer 10 [] true, mkPlayer 11 [] false, mkPlayer 12 [] true],
    active_player_id := some 10,
    current_trick := [⟨7, Suit.Coeur⟩, ⟨7, Suit.Carreau⟩],
    current_claim := some ⟨2, 7⟩, phase := GamePhase.ReactionWindow }

def c9Engine : GameEngine :=
  { active_games := [(1, c9Room)], active_timers := [1],
    last_play_count := 2, last_player_id := some 10 }

/-- An in-game room with a non-empty pile (left over from an uncontested
play) in which player 10 is about to play an empty list of cards. -/
def c10Room : GameState :=
  { game_id := 1, players := [mkPlayer 10 [⟨4, Suit.Trefle⟩] false, mkPlayer 11 [] false],
    active_player_id := some 10, current_trick := [⟨9, Suit.Coeur⟩],
    current_claim := none, phase := GamePhase.InGame }

def c10Engine : GameEngine :=
  { active_games := [(1, c10Room)], active_timers := [],
    last_play_count := 1, last_player_id := some 11 }

/- ──────────────────────  basic lemmas  ────────────────────── -/

theorem lookupGame_updateGame_self {games : List (GameId × GameState)}
    {gid : GameId} {g : GameState} (h : lookupGame games gid = some g)
    (st : GameState) :
    lookupGame (updateGame games gid st) gid = some st := by
  induction games with
  | nil => simp [lookupGame] at h
  | cons hd tl ih =>
    obtain ⟨k, v⟩ := hd
    by_cases hk : k = gid
    · subst hk
      simp [lookupGame, updateGame]
    · simp only [lookupGame, updateGame, if_neg hk] at h ⊢
      exact ih h

theorem lookupGame_updateGame_ne {games : List (GameId × GameState)}
    {gid gid' : GameId} (h : gid' ≠ gid) (st : GameState) :
    lookupGame (updateGame games gid st) gid' = lookupGame games gid' := by
  induction games with
  | nil => rfl
  | cons hd tl ih =>
    obtain ⟨k, v⟩ := hd
    by_cases hk : k = gid
    · subst hk
      have hk' : k ≠ gid' := fun hc => h hc.symm
      simp [lookupGame, updateGame, hk']
    · by_cases hk2 : k = gid'
      · subst hk2
        simp [lookupGame, updateGame, hk]
      · simp [lookupGame, updateGame, hk, hk2, ih]

theorem findPlayer_spec {ps : List Player} {pid : PlayerId} :
    ∀ {i : Nat} {p : Player}, findPlayer ps pid = some (i, p) →
      ps.get? i = some p ∧ p.id = pid := by
  induction ps with
  | nil => intro i p h; simp [findPlayer] at h
  | cons q rest ih =>
    intro i p h
    simp only [findPlayer] at h
    by_cases hq : q.id = pid
    · rw [if_pos hq] at h
      obtain ⟨hi, hp⟩ := Prod.mk.injEq .. ▸ Option.some.injEq .. ▸ h
      subst hi; subst hp
      exact ⟨rfl, hq⟩
    · rw [if_neg hq] at h
      match hrec : findPlayer rest pid with
      | none => rw [hrec] at h; simp at h
      | some (j, r) =>
        rw [hrec] at h
        simp only [Option.map_some'] at h
        obtain ⟨hi, hp⟩ := Prod.mk.injEq .. ▸ Option.some.injEq .. ▸ h
        subst hi; subst hp
        have := ih hrec
        simpa using this

theorem set_same : ∀ (l : List Player) (i : Nat) (p : Player),
    l.get? i = some p → l.set i p = l
  | [], i, p, h => by simp at h
  | a :: l, 0, p, h => by
      simp only [List.get?] at h
      cases h
      rfl
  | a :: l, i + 1, p, h => by
      simp only [List.get?] at h
      simp [List.set, set_same l i p h]

theorem map_set_same {β : Type} (f : Player → β) :
    ∀ (l : List Player) (i : Nat) (p q : Player),
      l.get? i = some p → f q = f p → (l.set i q).map f = l.map f
  | [], _, _, _, h, _ => by simp at h
  | a :: l, 0, p, q, h, hfq => by
      simp only [List.get?] at h
      cases h
      simp [List.set, hfq]
  | a :: l, i + 1, p, q, h, hfq => by
      simp only [List.get?] at h
      simp [List.set, map_set_same f l i p q h hfq]

theorem sum_map_set (f : Player → Nat) :
    ∀ (l : List Player) (i : Nat) (p q : Player), l.get? i = some p →
      ((l.set i q).map f).sum + f p = (l.map f).sum + f q
  | [], i, p, q, h => by simp at h
  | a :: l, 0, p, q, h => by
      simp only [List.get?] at h
      cases h
      simp [List.set]
      omega
  | a :: l, i + 1, p, q, h => by
      simp only [List.get?] at h
      have := sum_map_set f l i p q h
      simp only [List.set, List.map, List.sum_cons]
      omega

theorem removeCards_length : ∀ (cards hand h' : List Card),
    removeCards hand cards = some h' → h'.length + cards.length = hand.length
  | [], hand, h', h => by
      simp only [removeCards, Option.some.injEq] at h
      subst h; simp
  | c :: rest, hand, h', h => by
      simp only [removeCards] at h
      by_cases hc : c ∈ hand
      · rw [if_pos hc] at h
        have ih := removeCards_length rest (hand.erase c) h' h
        have hl := List.length_erase_of_mem hc
        have hpos := List.length_pos_of_mem hc
        simp only [List.length_cons]
        omega
      · rw [if_neg hc] at h; exact absurd h (by simp)

theorem dealHands_length (deck : List Card) (cpp : Nat) :
    ∀ (i : Nat) (ps : List Player), (dealHands deck cpp i ps).length = ps.length
  | _, [] => rfl
  | i, _ :: rest => by
      simp [dealHands, dealHands_length deck cpp (i + 1) rest]

theorem dealHands_get? (deck : List Card) (cpp : Nat) :
    ∀ (ps : List Player) (i j : Nat),
      (dealHands deck cpp i ps).get? j =
        (ps.get? j).map
          (fun p => { p with hand := (deck.drop ((i + j) * cpp)).take cpp,
                             has_passed := false })
  | [], i, j => by simp [dealHands]
  | p :: rest, i, 0 => by simp [dealHands]
  | p :: rest, i, j + 1 => by
      have := dealHands_get? deck cpp rest (i + 1) j
      have harith : i + 1 + j = i + (j + 1) := by omega
      simp only [dealHands, List.get?]
      rw [this, harith]

theorem dealHands_sum (deck : List Card) (cpp : Nat) :
    ∀ (ps : List Player) (i : Nat), (i + ps.length) * cpp ≤ deck.length →
      ((dealHands deck cpp i ps).map (fun p => p.hand.length)).sum =
        ps.length * cpp
  | [], _, _ => by simp [dealHands]
  | p :: rest, i, h => by
      have harith : (i + (rest.length + 1)) * cpp =
          i * cpp + cpp + rest.length * cpp := by ring
      have h' : (i + 1 + rest.length) * cpp ≤ deck.length := by
        have : (i + 1 + rest.length) * cpp = (i + (rest.length + 1)) * cpp := by
          ring
        simp only [List.length_cons] at h
        omega
      have ih := dealHands_sum deck cpp rest (i + 1) h'
      have htake : ((deck.drop (i * cpp)).take cpp).length = cpp := by
        have hd : (deck.drop (i * cpp)).length = deck.length - i * cpp := by
          simp
        have : (i + (rest.length + 1)) * cpp ≤ deck.length := by
          simpa using h
        rw [List.length_take, hd]
        omega
      simp only [dealHands, List.map, List.sum_cons, htake, ih,
        List.length_cons]
      ring

/-- `scanOffsets` is exactly: collect the candidates at the scanned
circular positions, in scan order, and return the id of the first one
that has not passed. -/
theorem scanOffsets_eq_find? (ps : List Player) (a : Nat) :
    ∀ os : List Nat,
      scanOffsets ps a os =
        ((os.filterMap (fun o => ps.get? ((a + o) % ps.length))).find?
            (fun c => !c.has_passed)).map Player.id
  | [] => rfl
  | o :: rest => by
      simp only [scanOffsets, List.filterMap]
      match hget : ps.get? ((a + o) % ps.length) with
      | none => simpa [hget] using scanOffsets_eq_find? ps a rest
      | some cand =>
        by_cases hp : cand.has_passed
        · simp only [hget, if_pos hp]
          rw [List.find?_cons]
          simp only [hp, Bool.not_true]
          exact scanOffsets_eq_find? ps a rest
        · simp only [hget, if_neg hp]
          rw [List.find?_cons]
          simp [Bool.not_eq_true] at hp
          simp [hp]

/- ──────────────  characterization of the operations  ────────────── -/

theorem start_game_ok {e : GameEngine} {gid : GameId} {game : GameState}
    (deck : List Card)
    (hg : lookupGame e.active_games gid = some game)
    (hphase : game.phase = GamePhase.WaitingForPlayers)
    (hn : 2 ≤ game.players.length) :
    start_game e gid deck =
      ({ e with
           active_games := updateGame e.active_games gid
             { game with
                 players :=
                   dealHands deck (deck.length / game.players.length) 0 game.players
                 active_player_id := game.players.head?.map Player.id
                 phase := GamePhase.InGame
                 current_trick := []
                 current_claim := none } }, none) := by
  unfold start_game
  rw [hg]
  simp [hphase, Nat.not_lt.mpr hn]

theorem start_game_err_phase {e : GameEngine} {gid : GameId} {game : GameState}
    (deck : List Card)
    (hg : lookupGame e.active_games gid = some game)
    (hphase : game.phase ≠ GamePhase.WaitingForPlayers) :
    start_game e gid deck = (e, some GameError.InvalidPhase) := by
  unfold start_game
  rw [hg]
  simp [hphase]

theorem start_game_err_players {e : GameEngine} {gid : GameId} {game : GameState}
    (deck : List Card)
    (hg : lookupGame e.active_games gid = some game)
    (hphase : game.phase = GamePhase.WaitingForPlayers)
    (hn : game.players.length < 2) :
    start_game e gid deck = (e, some GameError.NotEnoughPlayers) := by
  unfold start_game
  rw [hg]
  simp [hphase, hn]

theorem play_cards_ok {e : GameEngine} {gid : GameId} {pid : PlayerId}
    {game : GameState} {idx : Nat} {player : Player} {hand' : List Card}
    (cards : List Card) (claim : Claim)
    (hg : lookupGame e.active_games gid = some game)
    (hphase : game.phase = GamePhase.InGame)
    (hactive : game.active_player_id = some pid)
    (hfind : findPlayer game.players pid = some (idx, player))
    (hrem : removeCards player.hand cards = some hand') :
    play_cards e gid pid cards claim =
      ({ e with
           active_games := updateGame e.active_games gid
             { game with
                 players := game.players.set idx { player with hand := hand' }
                 current_trick := game.current_trick ++ cards
                 current_claim := some claim
                 phase := GamePhase.ReactionWindow }
           active_timers := insertTimer gid e.active_timers
           last_play_count := cards.length
           last_player_id := some pid }, none) := by
  unfold play_cards
  rw [hg]
  simp [hphase, hactive, hfind, hrem]

theorem play_cards_err_turn {e : GameEngine} {gid : GameId} {pid : PlayerId}
    {game : GameState} (cards : List Card) (claim : Claim)
    (hg : lookupGame e.active_games gid = some game)
    (hphase : game.phase = GamePhase.InGame)
    (hactive : game.active_player_id ≠ some pid) :
    play_cards e gid pid cards claim = (e, some GameError.NotYourTurn) := by
  unfold play_cards
  rw [hg]
  simp [hphase, hactive]

theorem call_bluff_ok {e : GameEngine} {gid : GameId} {caller_id : PlayerId}
    {game : GameState} {claim : Claim} {liar_id : PlayerId}
    {liar_idx caller_idx : Nat} {liar caller : Player}
    (hg : lookupGame e.active_games gid = some game)
    (hphase : game.phase = GamePhase.ReactionWindow)
    (hclaim : game.current_claim = some claim)
    (hlast : e.last_player_id = some liar_id)
    (hne : caller_id ≠ liar_id)
    (hliar : findPlayer game.players liar_id = some (liar_idx, liar))
    (hcaller : findPlayer game.players caller_id = some (caller_idx, caller)) :
    call_bluff e gid caller_id =
      ({ e with
           active_timers := e.active_timers.erase gid
           active_games := updateGame e.active_games gid
             { game with
                 players :=
                   if bluffDetected game.current_trick e.last_play_count claim then
                     game.players.set liar_idx
                       { liar with hand := liar.hand ++ game.current_trick }
                   else
                     game.players.set caller_idx
                       { caller with hand := caller.hand ++ game.current_trick }
                 active_player_id :=
                   if bluffDetected game.current_trick e.last_play_count claim then
                     some caller_id
                   else some liar_id
                 current_trick := []
                 current_claim := none
                 phase := GamePhase.InGame } }, none) := by
  have hself : ¬(some caller_id = e.last_player_id) := by
    rw [hlast]; simp [hne]
  have hdrop :
      (if e.last_play_count > 0 then
          game.current_trick.drop (game.current_trick.length - e.last_play_count)
        else []) =
        game.current_trick.drop (game.current_trick.length - e.last_play_count) := by
    by_cases h0 : e.last_play_count > 0
    · simp [h0]
    · have : e.last_play_count = 0 := by omega
      simp [this, List.drop_length]
  have hbool :
      (((game.current_trick.drop
            (game.current_trick.length - e.last_play_count)).length
          != claim.quantity)
        || (game.current_trick.drop
              (game.current_trick.length - e.last_play_count)).any
            (fun c => c.value != claim.value)) = true ↔
        bluffDetected game.current_trick e.last_play_count claim := by
    simp [bluffDetected, List.any_eq_true, bne_iff_ne]
  have hgetd : e.last_player_id.getD caller_id = liar_id := by
    rw [hlast]; rfl
  unfold call_bluff
  rw [hg]
  simp only [hphase, hself, hclaim, hgetd, hliar, hcaller, hdrop,
    if_neg (by simp : ¬(GamePhase.ReactionWindow ≠ GamePhase.ReactionWindow)),
    if_neg hself]
  by_cases hb : bluffDetected game.current_trick e.last_play_count claim
  · rw [if_pos (hbool.mpr hb)]
    simp [hb]
  · rw [if_neg (fun hc => hb (hbool.mp hc))]
    simp [hb]

theorem call_bluff_err_phase {e : GameEngine} {gid : GameId}
    {game : GameState} (caller_id : PlayerId)
    (hg : lookupGame e.active_games gid = some game)
    (hphase : game.phase ≠ GamePhase.ReactionWindow) :
    call_bluff e gid caller_id = (e, some GameError.InvalidPhase) := by
  unfold call_bluff
  rw [hg]
  simp [hphase]

theorem pass_turn_ok_next {e : GameEngine} {gid : GameId} {pid : PlayerId}
    {game : GameState} {idx : Nat} {player : Player} {next_id : PlayerId}
    (hg : lookupGame e.active_games gid = some game)
    (hphase : game.phase = GamePhase.InGame)
    (hactive : game.active_player_id = some pid)
    (hfind : findPlayer game.players pid = some (idx, player))
    (hnext :
      next_active_player
        { game with players := game.players.set idx { player with has_passed := true } }
        idx = some next_id) :
    pass_turn e gid pid =
      ({ e with
           active_games := updateGame e.active_games gid
             { game with
                 players := game.players.set idx { player with has_passed := true }
                 active_player_id := some next_id } }, none) := by
  unfold pass_turn
  simp only [hg]
  rw [if_neg (by simp [hphase]), if_neg (by simp [hactive])]
  simp only [hfind]
  rw [hnext]

theorem pass_turn_ok_trick_end {e : GameEngine} {gid : GameId} {pid : PlayerId}
    {game : GameState} {idx : Nat} {player : Player}
    (hg : lookupGame e.active_games gid = some game)
    (hphase : game.phase = GamePhase.InGame)
    (hactive : game.active_player_id = some pid)
    (hfind : findPlayer game.players pid = some (idx, player))
    (hnext :
      next_active_player
        { game with players := game.players.set idx { player with has_passed := true } }
        idx = none) :
    pass_turn e gid pid =
      ({ e with
           active_games := updateGame e.active_games gid
             { game with
                 players :=
                   (game.players.set idx { player with has_passed := true }).map
                     (fun p => { p with has_passed := false })
                 current_trick := []
                 current_claim := none
                 active_player_id := some pid } }, none) := by
  unfold pass_turn
  simp only [hg]
  rw [if_neg (by simp [hphase]), if_neg (by simp [hactive])]
  simp only [hfind]
  rw [hnext]

theorem reaction_timer_fire_eq {e : GameEngine} {gid : GameId}
    {game : GameState} {liar_id : PlayerId} {liar_idx : Nat} {liar : Player}
    (hg : lookupGame e.active_games gid = some game)
    (hlast : e.last_player_id = some liar_id)
    (hliar : findPlayer game.players liar_id = some (liar_idx, liar)) :
    reaction_timer_fire e gid =
      { e with
          active_games := updateGame e.active_games gid
            { game with
                active_player_id := next_active_player game liar_idx
                phase := GamePhase.InGame }
          active_timers := e.active_timers.erase gid } := by
  unfold reaction_timer_fire
  simp only [hg, hlast, hliar]

/- Shape lemmas: every action either succeeds, or — with the single
exception of `call_bluff` after its timer pop — returns the engine
unchanged. -/

theorem start_game_all_or_nothing (e : GameEngine) (gid : GameId)
    (deck : List Card) :
    (start_game e gid deck).2 = none ∨ (start_game e gid deck).1 = e := by
  unfold start_game
  split
  · right; rfl
  · split
    · right; rfl
    · split
      · right; rfl
      · left; rfl

theorem play_cards_all_or_nothing (e : GameEngine) (gid : GameId)
    (pid : PlayerId) (cards : List Card) (claim : Claim) :
    (play_cards e gid pid cards claim).2 = none ∨
      (play_cards e gid pid cards claim).1 = e := by
  unfold play_cards
  split
  · right; rfl
  · split
    · right; rfl
    · split
      · right; rfl
      · split
        · right; rfl
        · split
          · right; rfl
          · left; rfl

theorem pass_turn_all_or_nothing (e : GameEngine) (gid : GameId)
    (pid : PlayerId) :
    (pass_turn e gid pid).2 = none ∨ (pass_turn e gid pid).1 = e := by
  unfold pass_turn
  split
  · right; rfl
  · split
    · right; rfl
    · split
      · right; rfl
      · split
        · right; rfl
        · dsimp only
          split
          · left; rfl
          · left; rfl

theorem call_bluff_cases (e : GameEngine) (gid : GameId) (caller_id : PlayerId) :
    (call_bluff e gid caller_id).2 = none ∨
      (call_bluff e gid caller_id).1 = e ∨
      ((call_bluff e gid caller_id).1 =
          { e with active_timers := e.active_timers.erase gid } ∧
        ((call_bluff e gid caller_id).2 = some GameError.NoActiveClaim ∨
          (call_bluff e gid caller_id).2 = some GameError.PlayerNotFound)) := by
  unfold call_bluff
  cases hlk : lookupGame e.active_games gid with
  | none => simp [hlk]
  | some game =>
    simp only [hlk]
    by_cases hph : game.phase ≠ GamePhase.ReactionWindow
    · rw [if_pos hph]; simp
    · rw [if_neg hph]
      by_cases hself : some caller_id = e.last_player_id
      · rw [if_pos hself]; simp
      · rw [if_neg hself]
        cases hcl : game.current_claim with
        | none => simp [hcl]
        | some claim =>
          simp only [hcl]
          cases hliar : findPlayer game.players (e.last_player_id.getD caller_id) with
          | none => simp [hliar]
          | some lp =>
            obtain ⟨liar_idx, liar⟩ := lp
            simp only [hliar]
            cases hcal : findPlayer game.players caller_id with
            | none => simp [hcal]
            | some cp =>
              obtain ⟨caller_idx, caller⟩ := cp
              simp [hcal]

/- Isolation lemmas: an operation addressed to room `gid` never changes
the stored `GameState` of any other room `gid'`. -/

theorem start_game_other_room {gid gid' : GameId} (e : GameEngine)
    (deck : List Card) (h : gid' ≠ gid) :
    lookupGame (start_game e gid deck).1.active_games gid' =
      lookupGame e.active_games gid' := by
  unfold start_game
  split
  · rfl
  · split
    · rfl
    · split
      · rfl
      · exact lookupGame_updateGame_ne h _

theorem play_cards_other_room {gid gid' : GameId} (e : GameEngine)
    (pid : PlayerId) (cards : List Card) (claim : Claim) (h : gid' ≠ gid) :
    lookupGame (play_cards e gid pid cards claim).1.active_games gid' =
      lookupGame e.active_games gid' := by
  unfold play_cards
  split
  · rfl
  · split
    · rfl
    · split
      · rfl
      · split
        · rfl
        · split
          · rfl
          · exact lookupGame_updateGame_ne h _

theorem pass_turn_other_room {gid gid' : GameId} (e : GameEngine)
    (pid : PlayerId) (h : gid' ≠ gid) :
    lookupGame (pass_turn e gid pid).1.active_games gid' =
      lookupGame e.active_games gid' := by
  unfold pass_turn
  split
  · rfl
  · split
    · rfl
    · split
      · rfl
      · split
        · rfl
        · dsimp only
          split
          · exact lookupGame_updateGame_ne h _
          · exact lookupGame_updateGame_ne h _

theorem call_bluff_other_room {gid gid' : GameId} (e : GameEngine)
    (caller_id : PlayerId) (h : gid' ≠ gid) :
    lookupGame (call_bluff e gid caller_id).1.active_games gid' =
      lookupGame e.active_games gid' := by
  rcases call_bluff_cases e gid caller_id with hok | he | ⟨he, _⟩
  · -- success: engine shape analysis still needed, redo the case walk
    unfold call_bluff
    split
    · rfl
    · split
      · rfl
      · split
        · rfl
        · dsimp only
          split
          · rfl
          · split
            · rfl
            · split
              · rfl
              · exact lookupGame_updateGame_ne h _
  · rw [he]
  · rw [he]

theorem reaction_timer_fire_other_room {gid gid' : GameId} (e : GameEngine)
    (h : gid' ≠ gid) :
    lookupGame (reaction_timer_fire e gid).active_games gid' =
      lookupGame e.active_games gid' := by
  unfold reaction_timer_fire
  split
  · rfl
  · split
    · split
      · rfl
      · exact lookupGame_updateGame_ne h _
    · exact lookupGame_updateGame_ne h _

/- ─────────────────────────  the claims  ───────────────────────── -/

/-- C1 (amended): when the reaction-window timer of a room in phase
`ReactionWindow` fires uncancelled, the expiry handler computes the next
turn-holder from the claimant's position with the circular skip-passed
helper `next_active_player` shared with `pass_turn`, sets the phase back
to `InGame`, and removes the room's entry from the outstanding-timer
registry — but, contrary to the claim as frozen, it does NOT clear the
trick pile or the claim: both are left exactly as they were. -/
theorem C1_reaction_expiry (e : GameEngine) (gid : GameId) (game : GameState)
    (liar_id : PlayerId) (liar_idx : Nat) (liar : Player)
    (hg : lookupGame e.active_games gid = some game)
    (hphase : game.phase = GamePhase.ReactionWindow)
    (hlast : e.last_player_id = some liar_id)
    (hliar : findPlayer game.players liar_id = some (liar_idx, liar)) :
    reaction_timer_fire e gid =
      { e with
          active_games := updateGame e.active_games gid
            { game with
                active_player_id := next_active_player game liar_idx
                phase := GamePhase.InGame }
          active_timers := e.active_timers.erase gid } ∧
    roomOf (reaction_timer_fire e gid) gid =
      { game with
          active_player_id := next_active_player game liar_idx
          phase := GamePhase.InGame } ∧
    (roomOf (reaction_timer_fire e gid) gid).current_trick = game.current_trick ∧
    (roomOf (reaction_timer_fire e gid) gid).current_claim = game.current_claim := by
  have heq := reaction_timer_fire_eq hg hlast hliar
  have hroom : roomOf (reaction_timer_fire e gid) gid =
      { game with
          active_player_id := next_active_player game liar_idx
          phase := GamePhase.InGame } := by
    rw [heq]
    unfold roomOf
    rw [lookupGame_updateGame_self hg]
    rfl
  exact ⟨heq, hroom, by rw [hroom], by rw [hroom]⟩

/-- C1, counterexample to the claim as frozen: in the concrete room
`c1Room` (reaction window, one-card trick, recorded claim), the expiry
handler leaves both the trick pile and the claim in place instead of
clearing them. -/
theorem C1_counterexample :
    c1Room.phase = GamePhase.ReactionWindow ∧
    (roomOf (reaction_timer_fire c1Engine 1) 1).current_trick
      = [⟨7, Suit.Coeur⟩] ∧
    (roomOf (reaction_timer_fire c1Engine 1) 1).current_claim
      = some ⟨1, 7⟩ ∧
    (roomOf (reaction_timer_fire c1Engine 1) 1).phase = GamePhase.InGame :=
  ⟨rfl, rfl, rfl, rfl⟩

/-- C1, witness: the amended theorem applied to the concrete scenario. -/
theorem C1_witness :
    roomOf (reaction_timer_fire c1Engine 1) 1 =
      { c1Room with
          active_player_id := next_active_player c1Room 0
          phase := GamePhase.InGame } :=
  (C1_reaction_expiry c1Engine 1 c1Room 10 0 (mkPlayer 10 [] false)
    rfl rfl rfl rfl).2.1

/-- C2 (amended): a cancelled reaction timer performs no state mutation at
all; and once the timer has expired and auto-resolved the claim, a
subsequent `call_bluff` on that room fails — but with `InvalidPhase`
(the phase is back to `InGame`, and that guard fires first), not with
`NoActiveClaim` as the claim as frozen states. -/
theorem C2_timer_cancel_race :
    (∀ (e : GameEngine) (gid : GameId), reaction_timer true e gid = e) ∧
    (∀ (e : GameEngine) (gid : GameId) (caller_id : PlayerId)
        (game : GameState) (liar_id : PlayerId) (liar_idx : Nat) (liar : Player),
      lookupGame e.active_games gid = some game →
      game.phase = GamePhase.ReactionWindow →
      e.last_player_id = some liar_id →
      findPlayer game.players liar_id = some (liar_idx, liar) →
      (call_bluff (reaction_timer_fire e gid) gid caller_id).2 =
        some GameError.InvalidPhase) := by
  constructor
  · intro e gid; rfl
  · intro e gid caller_id game liar_id liar_idx liar hg hphase hlast hliar
    have heq := reaction_timer_fire_eq hg hlast hliar
    have hg' : lookupGame (reaction_timer_fire e gid).active_games gid =
        some { game with
                 active_player_id := next_active_player game liar_idx
                 phase := GamePhase.InGame } := by
      rw [heq]
      exact lookupGame_updateGame_self hg _
    rw [call_bluff_err_phase caller_id hg' (by simp)]

/-- C2, counterexample to the claim as frozen: after the timer of the
concrete room `c2Room` expires, `call_bluff` fails with `InvalidPhase`,
not `NoActiveClaim`. -/
theorem C2_counterexample :
    (call_bluff (reaction_timer_fire c2Engine 1) 1 11).2 =
      some GameError.InvalidPhase ∧
    (GameError.InvalidPhase ≠ GameError.NoActiveClaim) :=
  ⟨rfl, by decide⟩

/-- C2, witness: both conjuncts of the amended theorem at the concrete
scenario. -/
theorem C2_witness :
    reaction_timer true c2Engine 1 = c2Engine ∧
    (call_bluff (reaction_timer_fire c2Engine 1) 1 11).2 =
      some GameError.InvalidPhase :=
  ⟨C2_timer_cancel_race.1 c2Engine 1,
   C2_timer_cancel_race.2 c2Engine 1 11 c2Room 10 0 (mkPlayer 10 [] false)
     rfl rfl rfl rfl⟩

/-- C3 (confirmed): during a reaction window with a recorded claim and a
recorded last play of `N` cards, `call_bluff` by a caller other than the
last player detects a bluff exactly when the last `N` cards of the trick
differ in count from `claim.quantity` or one of them differs in value
from `claim.value` (`bluffDetected`); on a bluff the liar's hand receives
the whole pile and the caller becomes active, otherwise the caller's hand
receives the pile and the last player stays active; in both cases the
pile and claim are cleared and the phase returns to `InGame`. -/
theorem C3_call_bluff_resolution (e : GameEngine) (gid : GameId)
    (caller_id : PlayerId) (game : GameState) (claim : Claim)
    (liar_id : PlayerId) (liar_idx caller_idx : Nat) (liar caller : Player)
    (hg : lookupGame e.active_games gid = some game)
    (hphase : game.phase = GamePhase.ReactionWindow)
    (hclaim : game.current_claim = some claim)
    (hlast : e.last_player_id = some liar_id)
    (hne : caller_id ≠ liar_id)
    (hliar : findPlayer game.players liar_id = some (liar_idx, liar))
    (hcaller : findPlayer game.players caller_id = some (caller_idx, caller)) :
    (call_bluff e gid caller_id).2 = none ∧
    roomOf (call_bluff e gid caller_id).1 gid =
      { game with
          players :=
            if bluffDetected game.current_trick e.last_play_count claim then
              game.players.set liar_idx
                { liar with hand := liar.hand ++ game.current_trick }
            else
              game.players.set caller_idx
                { caller with hand := caller.hand ++ game.current_trick }
          active_player_id :=
            if bluffDetected game.current_trick e.last_play_count claim then
              some caller_id
            else some liar_id
          current_trick := []
          current_claim := none
          phase := GamePhase.InGame } := by
  have heq := call_bluff_ok hg hphase hclaim hlast hne hliar hcaller
  constructor
  · rw [heq]
  · rw [heq]
    unfold roomOf
    rw [lookupGame_updateGame_self hg]
    rfl

/-- C3, witness: the theorem applied to a truthful play (caller collects
the pile, claimant keeps the turn) and to a lying play (liar collects the
pile, caller takes the turn). -/
theorem C3_witness :
    ((call_bluff c3Engine 1 11).2 = none ∧
      roomOf (call_bluff c3Engine 1 11).1 1 =
        { c3Room with
            players :=
              if bluffDetected c3Room.current_trick 2 ⟨2, 7⟩ then
                c3Room.players.set 0 (mkPlayer 10 c3Room.current_trick false)
              else
                c3Room.players.set 1 (mkPlayer 11 c3Room.current_trick false)
            active_player_id :=
              if bluffDetected c3Room.current_trick 2 ⟨2, 7⟩ then some 11
              else some 10
            current_trick := []
            current_claim := none
            phase := GamePhase.InGame }) ∧
    ((call_bluff c3LieEngine 1 11).2 = none ∧
      roomOf (call_bluff c3LieEngine 1 11).1 1 =
        { c3LieRoom with
            players :=
              if bluffDetected c3LieRoom.current_trick 2 ⟨2, 7⟩ then
                c3LieRoom.players.set 0 (mkPlayer 10 c3LieRoom.current_trick false)
              else
                c3LieRoom.players.set 1 (mkPlayer 11 c3LieRoom.current_trick false)
            active_player_id :=
              if bluffDetected c3LieRoom.current_trick 2 ⟨2, 7⟩ then some 11
              else some 10
            current_trick := []
            current_claim := none
            phase := GamePhase.InGame }) :=
  ⟨C3_call_bluff_resolution c3Engine 1 11 c3Room ⟨2, 7⟩ 10 0 1
      (mkPlayer 10 [] false) (mkPlayer 11 [] false)
      rfl rfl rfl rfl (by decide) rfl rfl,
   C3_call_bluff_resolution c3LieEngine 1 11 c3LieRoom ⟨2, 7⟩ 10 0 1
      (mkPlayer 10 [] false) (mkPlayer 11 [] false)
      rfl rfl rfl rfl (by decide) rfl rfl⟩

/-- C4 (amended): the card-conservation equality holds right after
`start_game` (total = `n * floor(deck/n)`) and is preserved by every
successful `play_cards` and `call_bluff`; `pass_turn` preserves it when a
next player is found, but in its trick-exhaustion branch the pile is
discarded — the total drops by the size of the pile (which is non-empty
whenever a play was validated by timer expiry), contradicting the claim
as frozen. -/
theorem C4_conservation :
    (∀ (e : GameEngine) (gid : GameId) (deck : List Card) (game : GameState),
      lookupGame e.active_games gid = some game →
      game.phase = GamePhase.WaitingForPlayers →
      2 ≤ game.players.length →
      totalCards (roomOf (start_game e gid deck).1 gid) =
        game.players.length * (deck.length / game.players.length)) ∧
    (∀ (e : GameEngine) (gid : GameId) (pid : PlayerId) (cards : List Card)
        (claim : Claim) (game : GameState) (idx : Nat) (player : Player)
        (hand' : List Card),
      lookupGame e.active_games gid = some game →
      game.phase = GamePhase.InGame →
      game.active_player_id = some pid →
      findPlayer game.players pid = some (idx, player) →
      removeCards player.hand cards = some hand' →
      totalCards (roomOf (play_cards e gid pid cards claim).1 gid) =
        totalCards game) ∧
    (∀ (e : GameEngine) (gid : GameId) (caller_id : PlayerId)
        (game : GameState) (claim : Claim) (liar_id : PlayerId)
        (liar_idx caller_idx : Nat) (liar caller : Player),
      lookupGame e.active_games gid = some game →
      game.phase = GamePhase.ReactionWindow →
      game.current_claim = some claim →
      e.last_player_id = some liar_id →
      caller_id ≠ liar_id →
      findPlayer game.players liar_id = some (liar_idx, liar) →
      findPlayer game.players caller_id = some (caller_idx, caller) →
      totalCards (roomOf (call_bluff e gid caller_id).1 gid) =
        totalCards game) ∧
    (∀ (e : GameEngine) (gid : GameId) (pid : PlayerId) (game : GameState)
        (idx : Nat) (player : Player),
      lookupGame e.active_games gid = some game →
      game.phase = GamePhase.InGame →
      game.active_player_id = some pid →
      findPlayer game.players pid = some (idx, player) →
      (∀ next_id,
        next_active_player
          { game with
              players := game.players.set idx { player with has_passed := true } }
          idx = some next_id →
        totalCards (roomOf (pass_turn e gid pid).1 gid) = totalCards game) ∧
      (next_active_player
          { game with
              players := game.players.set idx { player with has_passed := true } }
          idx = none →
        totalCards (roomOf (pass_turn e gid pid).1 gid) +
          game.current_trick.length = totalCards game)) := by
  refine ⟨?_, ?_, ?_, ?_⟩
  · intro e gid deck game hg hphase hn
    rw [start_game_ok deck hg hphase hn]
    unfold roomOf
    rw [lookupGame_updateGame_self hg]
    simp only [Option.getD_some]
    unfold totalCards
    have hle : game.players.length * (deck.length / game.players.length) ≤
        deck.length := by
      rw [Nat.mul_comm]
      exact Nat.div_mul_le_self deck.length game.players.length
    have := dealHands_sum deck (deck.length / game.players.length)
      game.players 0 (by simpa using hle)
    simp [this]
  · intro e gid pid cards claim game idx player hand' hg hphase hactive hfind hrem
    rw [play_cards_ok cards claim hg hphase hactive hfind hrem]
    unfold roomOf
    rw [lookupGame_updateGame_self hg]
    simp only [Option.getD_some]
    unfold totalCards
    have hset := sum_map_set (fun p => p.hand.length) game.players idx player
      { player with hand := hand' } (findPlayer_spec hfind).1
    have hlen := removeCards_length cards player.hand hand' hrem
    simp only [List.length_append] at hset ⊢
    omega
  · intro e gid caller_id game claim liar_id liar_idx caller_idx liar caller
      hg hphase hclaim hlast hne hliar hcaller
    rw [call_bluff_ok hg hphase hclaim hlast hne hliar hcaller]
    unfold roomOf
    rw [lookupGame_updateGame_self hg]
    simp only [Option.getD_some]
    unfold totalCards
    by_cases hb : bluffDetected game.current_trick e.last_play_count claim
    · rw [if_pos hb]
      have hset := sum_map_set (fun p => p.hand.length) game.players liar_idx
        liar { liar with hand := liar.hand ++ game.current_trick }
        (findPlayer_spec hliar).1
      simp only [List.length_append, List.length_nil] at hset ⊢
      omega
    · rw [if_neg hb]
      have hset := sum_map_set (fun p => p.hand.length) game.players caller_idx
        caller { caller with hand := caller.hand ++ game.current_trick }
        (findPlayer_spec hcaller).1
      simp only [List.length_append, List.length_nil] at hset ⊢
      omega
  · intro e gid pid game idx player hg hphase hactive hfind
    have hset := sum_map_set (fun p => p.hand.length) game.players idx player
      { player with has_passed := true } (findPlayer_spec hfind).1
    constructor
    · intro next_id hnext
      rw [pass_turn_ok_next hg hphase hactive hfind hnext]
      unfold roomOf
      rw [lookupGame_updateGame_self hg]
      simp only [Option.getD_some]
      unfold totalCards
      dsimp only at hset ⊢
      omega
    · intro hnext
      rw [pass_turn_ok_trick_end hg hphase hactive hfind hnext]
      unfold roomOf
      rw [lookupGame_updateGame_self hg]
      simp only [Option.getD_some]
      unfold totalCards
      have hmap :
          ((game.players.set idx { player with has_passed := true }).map
              (fun p => { p with has_passed := false }) |>.map
            (fun p => p.hand.length)).sum =
          ((game.players.set idx { player with has_passed := true }).map
            (fun p => p.hand.length)).sum := by
        rw [List.map_map]
        rfl
      rw [hmap]
      dsimp only at hset ⊢
      simp only [List.length_nil]
      omega

/-- C4, counterexample to the claim as frozen: a legal run — `start_game`
(two players, 26 cards each), a one-card play by player 10, timer expiry,
then two passes — ends a trick with a non-empty pile, and the final
`pass_turn` silently discards that card: the total drops from 52 to 51. -/
theorem C4_counterexample :
    (start_game c4E0 1 build_deck).2 = none ∧
    (play_cards c4E1 1 10 [⟨3, Suit.Coeur⟩] ⟨1, 3⟩).2 = none ∧
    (pass_turn c4E3 1 11).2 = none ∧
    (pass_turn c4E4 1 10).2 = none ∧
    totalCards (roomOf c4E1 1) = 52 ∧
    totalCards (roomOf c4E4 1) = 52 ∧
    totalCards (roomOf c4E5 1) = 51 :=
  ⟨rfl, rfl, rfl, rfl, rfl, rfl, rfl⟩

/-- C4, witness: every conjunct of the amended theorem at a concrete
input. -/
theorem C4_witness :
    totalCards (roomOf (start_game c4E0 1 build_deck).1 1) =
      c4Room.players.length * (build_deck.length / c4Room.players.length) ∧
    totalCards (roomOf (play_cards c6TurnEngine 1 10 [⟨3, Suit.Coeur⟩] ⟨1, 3⟩).1 1) =
      totalCards c6TurnRoom ∧
    totalCards (roomOf (call_bluff c3Engine 1 11).1 1) = totalCards c3Room ∧
    totalCards (roomOf (pass_turn c8Engine 1 10).1 1) = totalCards c8Room ∧
    totalCards (roomOf (pass_turn c8AllEngine 1 10).1 1) +
      c8AllRoom.current_trick.length = totalCards c8AllRoom :=
  ⟨C4_conservation.1 c4E0 1 build_deck c4Room rfl rfl (by decide),
   C4_conservation.2.1 c6TurnEngine 1 10 [⟨3, Suit.Coeur⟩] ⟨1, 3⟩ c6TurnRoom 0
     (mkPlayer 10 [⟨3, Suit.Coeur⟩] false) [] rfl rfl rfl rfl rfl,
   C4_conservation.2.2.1 c3Engine 1 11 c3Room ⟨2, 7⟩ 10 0 1
     (mkPlayer 10 [] false) (mkPlayer 11 [] false)
     rfl rfl rfl rfl (by decide) rfl rfl,
   (C4_conservation.2.2.2 c8Engine 1 10 c8Room 0 (mkPlayer 10 [] false)
     rfl rfl rfl rfl).1 12 rfl,
   (C4_conservation.2.2.2 c8AllEngine 1 10 c8AllRoom 0 (mkPlayer 10 [] false)
     rfl rfl rfl rfl).2 rfl⟩

/-- C5 (amended): every action addressed to room B leaves the stored
`GameState` of any other room A untouched — but, contrary to the claim as
frozen, the OUTCOME of a later `call_bluff` on room A is not preserved,
because the "last player / last play count" bookkeeping lives on the
engine and is shared by all rooms (see the counterexample). -/
theorem C5_room_isolation (e : GameEngine) (gidA gidB : GameId)
    (h : gidA ≠ gidB) :
    (∀ deck, lookupGame (start_game e gidB deck).1.active_games gidA =
      lookupGame e.active_games gidA) ∧
    (∀ pid cards claim,
      lookupGame (play_cards e gidB pid cards claim).1.active_games gidA =
        lookupGame e.active_games gidA) ∧
    (∀ caller_id,
      lookupGame (call_bluff e gidB caller_id).1.active_games gidA =
        lookupGame e.active_games gidA) ∧
    (∀ pid, lookupGame (pass_turn e gidB pid).1.active_games gidA =
      lookupGame e.active_games gidA) ∧
    (∀ cancelled,
      lookupGame (reaction_timer cancelled e gidB).active_games gidA =
        lookupGame e.active_games gidA) := by
  refine ⟨fun deck => start_game_other_room e deck h,
          fun pid cards claim => play_cards_other_room e pid cards claim h,
          fun caller_id => call_bluff_other_room e caller_id h,
          fun pid => pass_turn_other_room e pid h,
          fun cancelled => ?_⟩
  cases cancelled
  · exact reaction_timer_fire_other_room e h
  · rfl

/-- C5, counterexample to the claim as frozen: with room 1 awaiting a
contest of player 10's truthful two-card play, a direct `call_bluff` by
player 11 succeeds; but if player 20 first plays a card in room 2, the
same `call_bluff` on room 1 instead fails with `PlayerNotFound` (the
shared last-player field now names a player of room 2), even though room
1's stored state is unchanged. -/
theorem C5_counterexample :
    (call_bluff c5Engine 1 11).2 = none ∧
    roomOf c5EngineB 1 = c5RoomA ∧
    c5EngineB.last_player_id = some 20 ∧
    (call_bluff c5EngineB 1 11).2 = some GameError.PlayerNotFound :=
  ⟨rfl, rfl, rfl, rfl⟩

/-- C5, witness: the isolation half of the amended theorem at the
concrete two-room engine. -/
theorem C5_witness :
    lookupGame (play_cards c5Engine 2 20 [⟨5, Suit.Coeur⟩] ⟨1, 5⟩).1.active_games 1 =
      lookupGame c5Engine.active_games 1 ∧
    lookupGame (reaction_timer false c5Engine 2).active_games 1 =
      lookupGame c5Engine.active_games 1 :=
  ⟨(C5_room_isolation c5Engine 1 2 (by decide)).2.1 20 [⟨5, Suit.Coeur⟩] ⟨1, 5⟩,
   (C5_room_isolation c5Engine 1 2 (by decide)).2.2.2.2 false⟩

/-- C6 (amended): `start_game`, `play_cards` and `pass_turn` are
all-or-nothing — on any failure the engine is returned unchanged — and
`play_cards` by a non-active player fails with `NotYourTurn` leaving the
engine exactly as it was.  `call_bluff` is all-or-nothing for its
`RoomNotFound` / `InvalidPhase` / `CannotChallengeSelf` failures, but,
contrary to the claim as frozen, its `NoActiveClaim` (and
`PlayerNotFound`) failures happen only after the room's reaction-timer
entry has been popped and cancelled: the rooms are untouched but the
timer registry is already mutated. -/
theorem C6_error_atomicity :
    (∀ (e : GameEngine) (gid : GameId) (deck : List Card),
      (start_game e gid deck).2 = none ∨ (start_game e gid deck).1 = e) ∧
    (∀ (e : GameEngine) (gid : GameId) (pid : PlayerId) (cards : List Card)
        (claim : Claim),
      (play_cards e gid pid cards claim).2 = none ∨
        (play_cards e gid pid cards claim).1 = e) ∧
    (∀ (e : GameEngine) (gid : GameId) (pid : PlayerId),
      (pass_turn e gid pid).2 = none ∨ (pass_turn e gid pid).1 = e) ∧
    (∀ (e : GameEngine) (gid : GameId) (caller_id : PlayerId),
      (call_bluff e gid caller_id).2 = none ∨
        (call_bluff e gid caller_id).1 = e ∨
        ((call_bluff e gid caller_id).1 =
            { e with active_timers := e.active_timers.erase gid } ∧
          ((call_bluff e gid caller_id).2 = some GameError.NoActiveClaim ∨
            (call_bluff e gid caller_id).2 = some GameError.PlayerNotFound))) ∧
    (∀ (e : GameEngine) (gid : GameId) (pid : PlayerId) (cards : List Card)
        (claim : Claim) (game : GameState),
      lookupGame e.active_games gid = some game →
      game.phase = GamePhase.InGame →
      game.active_player_id ≠ some pid →
      play_cards e gid pid cards claim = (e, some GameError.NotYourTurn)) :=
  ⟨start_game_all_or_nothing,
   play_cards_all_or_nothing,
   pass_turn_all_or_nothing,
   call_bluff_cases,
   fun _ _ _ cards claim _ hg hphase hactive =>
     play_cards_err_turn cards claim hg hphase hactive⟩

/-- C6, counterexample to the claim as frozen: in the (reaction-window,
no-claim) room `c6Room`, `call_bluff` fails with `NoActiveClaim`, yet the
engine has been mutated — the room's timer entry is gone. -/
theorem C6_counterexample :
    (call_bluff c6Engine 1 11).2 = some GameError.NoActiveClaim ∧
    c6Engine.active_timers = [1] ∧
    (call_bluff c6Engine 1 11).1.active_timers = [] :=
  ⟨rfl, rfl, rfl⟩

/-- C6, witness: the `NotYourTurn` conjunct of the amended theorem at a
concrete input (player 11 tries to play while player 10 is active), plus
instances of the all-or-nothing conjuncts. -/
theorem C6_witness :
    play_cards c6TurnEngine 1 11 [] ⟨1, 3⟩ =
      (c6TurnEngine, some GameError.NotYourTurn) ∧
    ((start_game c6TurnEngine 1 build_deck).2 = none ∨
      (start_game c6TurnEngine 1 build_deck).1 = c6TurnEngine) ∧
    ((call_bluff c6TurnEngine 1 11).2 = none ∨
      (call_bluff c6TurnEngine 1 11).1 = c6TurnEngine ∨
      ((call_bluff c6TurnEngine 1 11).1 =
          { c6TurnEngine with
              active_timers := c6TurnEngine.active_timers.erase 1 } ∧
        ((call_bluff c6TurnEngine 1 11).2 = some GameError.NoActiveClaim ∨
          (call_bluff c6TurnEngine 1 11).2 = some GameError.PlayerNotFound))) :=
  ⟨C6_error_atomicity.2.2.2.2 c6TurnEngine 1 11 [] ⟨1, 3⟩ c6TurnRoom
      rfl rfl (by decide),
   C6_error_atomicity.1 c6TurnEngine 1 build_deck,
   C6_error_atomicity.2.2.2.1 c6TurnEngine 1 11⟩

/-- C7 (confirmed): `start_game` on a waiting room with at least two
players deals exactly `floor(52/n)` cards to each player in player order
from the shuffled deck (hands are consecutive deck slices), resets every
`has_passed`, clears pile and claim, hands the turn to the first player
and enters `InGame`; in any other phase it fails with `InvalidPhase`, and
with fewer than two players it fails with `NotEnoughPlayers`, both
without mutating anything. -/
theorem C7_start_game (e : GameEngine) (gid : GameId) (deck : List Card)
    (game : GameState)
    (hg : lookupGame e.active_games gid = some game) :
    (game.phase = GamePhase.WaitingForPlayers → 2 ≤ game.players.length →
      deck.Perm build_deck →
      (start_game e gid deck).2 = none ∧
      (∀ i, (roomOf (start_game e gid deck).1 gid).players.get? i =
        (game.players.get? i).map
          (fun p => { p with
              hand := (deck.drop (i * (52 / game.players.length))).take
                        (52 / game.players.length)
              has_passed := false })) ∧
      (∀ i q,
        (roomOf (start_game e gid deck).1 gid).players.get? i = some q →
        q.hand.length = 52 / game.players.length ∧ q.has_passed = false) ∧
      (roomOf (start_game e gid deck).1 gid).active_player_id =
        game.players.head?.map Player.id ∧
      (roomOf (start_game e gid deck).1 gid).phase = GamePhase.InGame ∧
      (roomOf (start_game e gid deck).1 gid).current_trick = [] ∧
      (roomOf (start_game e gid deck).1 gid).current_claim = none) ∧
    (game.phase ≠ GamePhase.WaitingForPlayers →
      start_game e gid deck = (e, some GameError.InvalidPhase)) ∧
    (game.phase = GamePhase.WaitingForPlayers → game.players.length < 2 →
      start_game e gid deck = (e, some GameError.NotEnoughPlayers)) := by
  refine ⟨?_, ?_, ?_⟩
  · intro hphase hn hperm
    have hlen : deck.length = 52 := by
      rw [hperm.length_eq]; rfl
    have heq := start_game_ok deck hg hphase hn
    have hroom : roomOf (start_game e gid deck).1 gid =
        { game with
            players :=
              dealHands deck (deck.length / game.players.length) 0 game.players
            active_player_id := game.players.head?.map Player.id
            phase := GamePhase.InGame
            current_trick := []
            current_claim := none } := by
      rw [heq]
      unfold roomOf
      rw [lookupGame_updateGame_self hg]
      rfl
    refine ⟨by rw [heq], ?_, ?_, by rw [hroom], by rw [hroom],
            by rw [hroom], by rw [hroom]⟩
    · intro i
      rw [hroom]
      show (dealHands deck (deck.length / game.players.length) 0
        game.players).get? i = _
      rw [dealHands_get? deck (deck.length / game.players.length)
        game.players 0 i]
      simp [hlen]
    · intro i q hq
      rw [hroom] at hq
      rw [show ({ game with
            players :=
              dealHands deck (deck.length / game.players.length) 0 game.players
            active_player_id := game.players.head?.map Player.id
            phase := GamePhase.InGame
            current_trick := []
            current_claim := none } : GameState).players =
          dealHands deck (deck.length / game.players.length) 0 game.players
        from rfl] at hq
      rw [dealHands_get? deck (deck.length / game.players.length)
        game.players 0 i] at hq
      rw [Option.map_eq_some'] at hq
      obtain ⟨p, hp, hpq⟩ := hq
      have hi : i < game.players.length := by
        rcases List.get?_eq_some.mp hp with ⟨h, _⟩
        exact h
      subst hpq
      constructor
      · have h1 : game.players.length * (52 / game.players.length) ≤ 52 := by
          rw [Nat.mul_comm]
          exact Nat.div_mul_le_self 52 game.players.length
        have h2 : (i + 1) * (52 / game.players.length) ≤
            game.players.length * (52 / game.players.length) :=
          Nat.mul_le_mul_right _ (by omega)
        have h3 : (i + 1) * (52 / game.players.length) =
            i * (52 / game.players.length) + 52 / game.players.length :=
          Nat.succ_mul i (52 / game.players.length)
        have h4 : 52 / game.players.length ≤
            52 - i * (52 / game.players.length) :=
          Nat.le_sub_of_add_le (by omega)
        simp only [Nat.zero_add, List.length_take, List.length_drop]
        rw [hlen]
        exact Nat.min_eq_left h4
      · rfl
  · intro hphase
    exact start_game_err_phase deck hg hphase
  · intro hphase hn
    exact start_game_err_players deck hg hphase hn

/-- C7, witness: the theorem at a fresh two-player room (success case:
player 0 receives the first 26-card slice), at an already-running room
(`InvalidPhase`) and at a one-player room (`NotEnoughPlayers`). -/
theorem C7_witness :
    (start_game c7Engine 1 build_deck).2 = none ∧
    (roomOf (start_game c7Engine 1 build_deck).1 1).players.get? 0 =
      (c4Room.players.get? 0).map
        (fun p => { p with
            hand := (build_deck.drop (0 * (52 / c4Room.players.length))).take
                      (52 / c4Room.players.length)
            has_passed := false }) ∧
    (roomOf (start_game c7Engine 1 build_deck).1 1).phase =
      GamePhase.InGame ∧
    start_game c6TurnEngine 1 build_deck =
      (c6TurnEngine, some GameError.InvalidPhase) ∧
    start_game c7SoloEngine 3 build_deck =
      (c7SoloEngine, some GameError.NotEnoughPlayers) :=
  ⟨((C7_start_game c7Engine 1 build_deck c4Room rfl).1 rfl (by decide)
      (List.Perm.refl _)).1,
   ((C7_start_game c7Engine 1 build_deck c4Room rfl).1 rfl (by decide)
      (List.Perm.refl _)).2.1 0,
   ((C7_start_game c7Engine 1 build_deck c4Room rfl).1 rfl (by decide)
      (List.Perm.refl _)).2.2.2.2.1,
   (C7_start_game c6TurnEngine 1 build_deck c6TurnRoom rfl).2.1 (by decide),
   (C7_start_game c7SoloEngine 3 build_deck c7SoloRoom rfl).2.2 rfl
     (by decide)⟩

/-- C8 (confirmed): `pass_turn` by the active player marks the passer's
`has_passed`, and then either advances the turn to the player found by
the circular forward scan (offsets `1..n` from the passer, skipping
passed players — spelled out below as a `find?` over the scanned
candidates), or, if the scan finds nobody, ends the trick: pile and claim
cleared, every `has_passed` reset, passer keeps the turn. -/
theorem C8_pass_turn (e : GameEngine) (gid : GameId) (pid : PlayerId)
    (game : GameState) (idx : Nat) (player : Player)
    (hg : lookupGame e.active_games gid = some game)
    (hphase : game.phase = GamePhase.InGame)
    (hactive : game.active_player_id = some pid)
    (hfind : findPlayer game.players pid = some (idx, player)) :
    (pass_turn e gid pid).2 = none ∧
    next_active_player
        { game with
            players := game.players.set idx { player with has_passed := true } }
        idx =
      (((List.range' 1 game.players.length).filterMap
          (fun o =>
            (game.players.set idx { player with has_passed := true }).get?
              ((idx + o) % game.players.length))).find?
         (fun c => !c.has_passed)).map Player.id ∧
    (∀ next_id,
      next_active_player
          { game with
              players := game.players.set idx { player with has_passed := true } }
          idx = some next_id →
      roomOf (pass_turn e gid pid).1 gid =
        { game with
            players := game.players.set idx { player with has_passed := true }
            active_player_id := some next_id }) ∧
    (next_active_player
        { game with
            players := game.players.set idx { player with has_passed := true } }
        idx = none →
      roomOf (pass_turn e gid pid).1 gid =
        { game with
            players :=
              (game.players.set idx { player with has_passed := true }).map
                (fun p => { p with has_passed := false })
            current_trick := []
            current_claim := none
            active_player_id := some pid }) := by
  have hlt : idx < game.players.length := by
    rcases List.get?_eq_some.mp (findPlayer_spec hfind).1 with ⟨h, _⟩
    exact h
  refine ⟨?_, ?_, ?_, ?_⟩
  · cases hn : next_active_player
        { game with
            players := game.players.set idx { player with has_passed := true } }
        idx with
    | none => rw [pass_turn_ok_trick_end hg hphase hactive hfind hn]
    | some q => rw [pass_turn_ok_next hg hphase hactive hfind hn]
  · have hne0 :
        ¬((game.players.set idx { player with has_passed := true }).length = 0) := by
      simp only [List.length_set]
      omega
    unfold next_active_player
    rw [if_neg hne0]
    have hsc := scanOffsets_eq_find?
      (game.players.set idx { player with has_passed := true }) idx
      (List.range' 1
        (game.players.set idx { player with has_passed := true }).length)
    simp only [List.length_set] at hsc ⊢
    exact hsc
  · intro next_id hnext
    rw [pass_turn_ok_next hg hphase hactive hfind hnext]
    unfold roomOf
    rw [lookupGame_updateGame_self hg]
    rfl
  · intro hnext
    rw [pass_turn_ok_trick_end hg hphase hactive hfind hnext]
    unfold roomOf
    rw [lookupGame_updateGame_self hg]
    rfl

/-- C8, witness: the theorem at a three-player room where the scan skips
a passed player and lands on player 12, and at its variant where everyone
else has passed, ending the trick with the passer (player 10) keeping the
turn. -/
theorem C8_witness :
    (pass_turn c8Engine 1 10).2 = none ∧
    roomOf (pass_turn c8Engine 1 10).1 1 =
      { c8Room with
          players := c8Room.players.set 0
            { mkPlayer 10 [] false with has_passed := true }
          active_player_id := some 12 } ∧
    roomOf (pass_turn c8AllEngine 1 10).1 1 =
      { c8AllRoom with
          players :=
            (c8AllRoom.players.set 0
              { mkPlayer 10 [] false with has_passed := true }).map
              (fun p => { p with has_passed := false })
          current_trick := []
          current_claim := none
          active_player_id := some 10 } :=
  ⟨(C8_pass_turn c8Engine 1 10 c8Room 0 (mkPlayer 10 [] false)
      rfl rfl rfl rfl).1,
   (C8_pass_turn c8Engine 1 10 c8Room 0 (mkPlayer 10 [] false)
      rfl rfl rfl rfl).2.2.1 12 rfl,
   (C8_pass_turn c8AllEngine 1 10 c8AllRoom 0 (mkPlayer 10 [] false)
      rfl rfl rfl rfl).2.2.2 rfl⟩

/-- C9 (confirmed): a successful `call_bluff` never changes any player's
`has_passed` flag — the flag vector after resolution equals the one
before (only hands, turn, pile, claim and phase change). -/
theorem C9_has_passed_frame (e : GameEngine) (gid : GameId)
    (caller_id : PlayerId) (game : GameState) (claim : Claim)
    (liar_id : PlayerId) (liar_idx caller_idx : Nat) (liar caller : Player)
    (hg : lookupGame e.active_games gid = some game)
    (hphase : game.phase = GamePhase.ReactionWindow)
    (hclaim : game.current_claim = some claim)
    (hlast : e.last_player_id = some liar_id)
    (hne : caller_id ≠ liar_id)
    (hliar : findPlayer game.players liar_id = some (liar_idx, liar))
    (hcaller : findPlayer game.players caller_id = some (caller_idx, caller)) :
    (call_bluff e gid caller_id).2 = none ∧
    (roomOf (call_bluff e gid caller_id).1 gid).players.map Player.has_passed =
      game.players.map Player.has_passed := by
  have heq := call_bluff_ok hg hphase hclaim hlast hne hliar hcaller
  refine ⟨by rw [heq], ?_⟩
  rw [heq]
  unfold roomOf
  rw [lookupGame_updateGame_self hg]
  simp only [Option.getD_some]
  by_cases hb : bluffDetected game.current_trick e.last_play_count claim
  · rw [if_pos hb]
    exact map_set_same Player.has_passed game.players liar_idx liar
      { liar with hand := liar.hand ++ game.current_trick }
      (findPlayer_spec hliar).1 rfl
  · rw [if_neg hb]
    exact map_set_same Player.has_passed game.players caller_idx caller
      { caller with hand := caller.hand ++ game.current_trick }
      (findPlayer_spec hcaller).1 rfl

/-- C9, witness: at a room whose pass flags are `[true, false, true]`,
resolving player 11's contest leaves the flags exactly as they were. -/
theorem C9_witness :
    (call_bluff c9Engine 1 11).2 = none ∧
    (roomOf (call_bluff c9Engine 1 11).1 1).players.map Player.has_passed =
      c9Room.players.map Player.has_passed :=
  C9_has_passed_frame c9Engine 1 11 c9Room ⟨2, 7⟩ 10 0 1
    (mkPlayer 10 [] true) (mkPlayer 11 [] false)
    rfl rfl rfl rfl (by decide) rfl rfl

/-- C10 (confirmed): the active player may play an EMPTY list of cards
with any claim: the call succeeds, leaves the pile untouched, records the
claim and opens a reaction window; and because a claim's quantity is
strictly positive (pydantic `gt=0`), a subsequent contest of that
zero-card play always detects a bluff — the empty player takes the whole
pile and the caller wins the turn. -/
theorem C10_empty_play (e : GameEngine) (gid : GameId)
    (pid caller_id : PlayerId) (game : GameState) (idx caller_idx : Nat)
    (player caller : Player) (c : Claim)
    (hg : lookupGame e.active_games gid = some game)
    (hphase : game.phase = GamePhase.InGame)
    (hactive : game.active_player_id = some pid)
    (hfind : findPlayer game.players pid = some (idx, player))
    (hq : 0 < c.quantity)
    (hne : caller_id ≠ pid)
    (hcaller : findPlayer game.players caller_id = some (caller_idx, caller)) :
    (play_cards e gid pid [] c).2 = none ∧
    roomOf (play_cards e gid pid [] c).1 gid =
      { game with current_claim := some c, phase := GamePhase.ReactionWindow } ∧
    (play_cards e gid pid [] c).1.last_play_count = 0 ∧
    (play_cards e gid pid [] c).1.last_player_id = some pid ∧
    (call_bluff (play_cards e gid pid [] c).1 gid caller_id).2 = none ∧
    roomOf (call_bluff (play_cards e gid pid [] c).1 gid caller_id).1 gid =
      { game with
          players := game.players.set idx
            { player with hand := player.hand ++ game.current_trick }
          active_player_id := some caller_id
          current_trick := []
          current_claim := none
          phase := GamePhase.InGame } := by
  have hrem : removeCards player.hand [] = some player.hand := rfl
  have heq := play_cards_ok [] c hg hphase hactive hfind hrem
  have hpl : game.players.set idx { player with hand := player.hand } =
      game.players := by
    have h1 : ({ player with hand := player.hand } : Player) = player := rfl
    rw [h1]
    exact set_same game.players idx player (findPlayer_spec hfind).1
  have hroom1 : lookupGame (play_cards e gid pid [] c).1.active_games gid =
      some { game with
               current_claim := some c
               phase := GamePhase.ReactionWindow } := by
    rw [heq]
    rw [lookupGame_updateGame_self hg]
    rw [Option.some.injEq]
    rw [hpl, List.append_nil]
  have hlast1 : (play_cards e gid pid [] c).1.last_player_id = some pid := by
    rw [heq]
  have hcount : (play_cards e gid pid [] c).1.last_play_count = 0 := by
    rw [heq]
    rfl
  have hbd : bluffDetected game.current_trick 0 c := by
    left
    rw [Nat.sub_zero, List.drop_length]
    simp only [List.length_nil]
    omega
  have heq2 := call_bluff_ok hroom1 rfl rfl hlast1 hne hfind hcaller
  refine ⟨by rw [heq], ?_, hcount, hlast1, by rw [heq2], ?_⟩
  · unfold roomOf
    rw [hroom1]
    rfl
  · rw [heq2]
    unfold roomOf
    rw [lookupGame_updateGame_self hroom1]
    simp only [Option.getD_some]
    dsimp only
    rw [hcount]
    rw [if_pos hbd, if_pos hbd]

/-- C10, witness: in a room with a leftover one-card pile, player 10
plays zero cards claiming one 7; player 11's contest then detects the
(inevitable) bluff: player 10 collects the pile and player 11 takes the
turn. -/
theorem C10_witness :
    (play_cards c10Engine 1 10 [] ⟨1, 7⟩).2 = none ∧
    roomOf (play_cards c10Engine 1 10 [] ⟨1, 7⟩).1 1 =
      { c10Room with
          current_claim := some ⟨1, 7⟩
          phase := GamePhase.ReactionWindow } ∧
    (play_cards c10Engine 1 10 [] ⟨1, 7⟩).1.last_play_count = 0 ∧
    (play_cards c10Engine 1 10 [] ⟨1, 7⟩).1.last_player_id = some 10 ∧
    (call_bluff (play_cards c10Engine 1 10 [] ⟨1, 7⟩).1 1 11).2 = none ∧
    roomOf (call_bluff (play_cards c10Engine 1 10 [] ⟨1, 7⟩).1 1 11).1 1 =
      { c10Room with
          players := c10Room.players.set 0
            { mkPlayer 10 [⟨4, Suit.Trefle⟩] false with
                hand := (mkPlayer 10 [⟨4, Suit.Trefle⟩] false).hand ++
                  c10Room.current_trick }
          active_player_id := some 11
          current_trick := []
          current_claim := none
          phase := GamePhase.InGame } :=
  C10_empty_play c10Engine 1 10 11 c10Room 0 1
    (mkPlayer 10 [⟨4, Suit.Trefle⟩] false) (mkPlayer 11 [] false) ⟨1, 7⟩
    rfl rfl rfl rfl (by decide) (by decide) rfl

end BluffRoyal
